import Mathlib

/-!
Verification development for the DoggoBot backend (FastAPI + SQLite).

The definitions below are a shallow embedding of the code in
`backend/database.py`, `backend/nlp_handler.py` and `backend/main.py`:

* SQLite tables are modelled as Lean lists of row structures, in insertion
  (rowid) order.  `REAL` columns only flow through storage and comparisons,
  so they are modelled as `Int`.
* `json.dumps` / `json.loads` for the opaque `meta` and `sample_images`
  text columns are external library code; they are taken as explicit
  function parameters (`dumps` / `loads`), and theorems that need the
  round trip hypothesise it at exactly the values they use.
* Python exceptions on reads (a stored blob that fails to decode) are
  reified as values (`MetaField.decodeError`) instead of control flow.
* The asyncio event loop is cooperative and single threaded, and the code
  holds `frame_lock` around both assignments, so handler bodies execute as
  atomic steps; stateful endpoints are modelled as functions from state to
  state plus result.
-/

namespace DoggoBot

/-! ## Text utilities (Python `str.lower`, `str.strip`, `in`) -/

/-- Python `needle.startswith` on character lists. -/
def startsWith : List Char → List Char → Bool
  | [], _ => true
  | _ :: _, [] => false
  | a :: as, b :: bs => a == b && startsWith as bs

/-- Python substring containment `needle in hay` on character lists. -/
def containsSeq (needle : List Char) : List Char → Bool
  | [] => startsWith needle []
  | c :: cs => startsWith needle (c :: cs) || containsSeq needle cs

/-- Python `str.strip()`: drop whitespace from both ends. -/
def trimWs (l : List Char) : List Char :=
  ((l.dropWhile Char.isWhitespace).reverse.dropWhile Char.isWhitespace).reverse

/-- `text.lower().strip()` from `NLPHandler.process_command`. -/
def normalizeText (s : String) : List Char :=
  trimWs (s.data.map Char.toLower)

/-- `any(keyword in text for keyword in kws)`. -/
def kwHit (t : List Char) (kws : List String) : Bool :=
  kws.any (fun k => containsSeq k.data t)

/-! ## Stored blobs: `json.dumps` on write, truthiness test + `json.loads` on read -/

/-- Result of reading a serialized TEXT column back
(`if row_val: row_val = json.loads(row_val)`): an empty string is kept
as-is, otherwise `json.loads` either succeeds or raises. -/
inductive MetaField (μ : Type) where
  | rawEmpty
  | parsed (m : μ)
  | decodeError
deriving DecidableEq

def MetaField.isErr {μ : Type} : MetaField μ → Bool
  | .decodeError => true
  | _ => false

def decodeField {μ : Type} (loads : String → Option μ) (s : String) : MetaField μ :=
  if s = "" then MetaField.rawEmpty
  else
    match loads s with
    | some m => MetaField.parsed m
    | none => MetaField.decodeError

/-! ## AlertStore (`backend/database.py`) -/

/-- The `alert_data` dict passed to `Database.insert_alert`: every field may
be absent (`dict.get` defaults apply). `meta` has type `μ` (an arbitrary
JSON-serializable blob). -/
structure AlertDraft (μ : Type) where
  id : Option String
  timestamp : Option Int
  status : Option String
  identity : Option String
  confidence : Option Int
  angle : Option Int
  distance : Option Int
  snapshot_path : Option String
  meta : Option μ
deriving DecidableEq

/-- A row of the `alerts` table; `meta` is the serialized TEXT column. -/
structure AlertRow where
  id : String
  timestamp : Int
  status : String
  identity : Option String
  confidence : Option Int
  angle : Option Int
  distance : Option Int
  snapshot_path : Option String
  acknowledged : Bool
  meta : String
deriving DecidableEq

/-- An alert dict as returned to callers (`meta` run through the
truthiness test and `json.loads`). -/
structure AlertView (μ : Type) where
  id : String
  timestamp : Int
  status : String
  identity : Option String
  confidence : Option Int
  angle : Option Int
  distance : Option Int
  snapshot_path : Option String
  acknowledged : Bool
  meta : MetaField μ
deriving DecidableEq

def viewRow {μ : Type} (loads : String → Option μ) (r : AlertRow) : AlertView μ :=
  ⟨r.id, r.timestamp, r.status, r.identity, r.confidence, r.angle, r.distance,
    r.snapshot_path, r.acknowledged, decodeField loads r.meta⟩

/-- `f"alert_{int(datetime.now().timestamp() * 1000)}"` with `now` the
current time in seconds. -/
def genAlertId (now : Int) : String := "alert_" ++ toString (now * 1000)

/-- The row built by `Database.insert_alert`: `dict.get` defaults for each
column, `acknowledged = False`, `meta = json.dumps(alert_data.get('meta', {}))`
(`emptyJson` stands for the `{}` default). -/
def draftRow {μ : Type} (dumps : μ → String) (emptyJson : μ) (now : Int)
    (a : AlertDraft μ) : AlertRow :=
  ⟨a.id.getD (genAlertId now), a.timestamp.getD now, a.status.getD "unknown",
    a.identity, a.confidence, a.angle, a.distance, a.snapshot_path, false,
    dumps (a.meta.getD emptyJson)⟩

/-- `Database.insert_alert`. `id` is the TEXT PRIMARY KEY, so inserting a
duplicate id raises an IntegrityError, modelled as `none`. -/
def insert_alert {μ : Type} (dumps : μ → String) (emptyJson : μ) (now : Int)
    (db : List AlertRow) (a : AlertDraft μ) : Option (List AlertRow × String) :=
  if db.any (fun r => decide (r.id = a.id.getD (genAlertId now))) then none
  else some (db ++ [draftRow dumps emptyJson now a], a.id.getD (genAlertId now))

/-- The WHERE clause built by `Database.get_alerts`: `if status:` is Python
truthiness, so `None` and the empty string both skip the status conjunct;
`if acknowledged is not None:` keeps `False` meaningful. -/
def rowMatches (status : Option String) (acknowledged : Option Bool)
    (r : AlertRow) : Bool :=
  (match status with
   | some s => if s = "" then true else decide (r.status = s)
   | none => true)
  &&
  (match acknowledged with
   | some b => decide (r.acknowledged = b)
   | none => true)

/-- `ORDER BY timestamp DESC` as a relation on rows. -/
def descTs : AlertRow → AlertRow → Prop := fun a b => b.timestamp ≤ a.timestamp

instance : DecidableRel descTs :=
  fun a b => inferInstanceAs (Decidable (b.timestamp ≤ a.timestamp))

instance : IsTotal AlertRow descTs := ⟨fun a b => le_total b.timestamp a.timestamp⟩

instance : IsTrans AlertRow descTs := ⟨fun _ _ _ h1 h2 => le_trans h2 h1⟩

/-- `Database.get_alerts`: filter, `ORDER BY timestamp DESC` (the sort is
stable on DB order for equal timestamps), `OFFSET`, `LIMIT`, then each row
dict gets its `meta` column decoded. -/
def get_alerts {μ : Type} (loads : String → Option μ) (db : List AlertRow)
    (limit offset : Nat) (status : Option String) (acknowledged : Option Bool) :
    List (AlertView μ) :=
  ((((List.insertionSort descTs (db.filter (rowMatches status acknowledged))).drop
      offset).take limit).map (viewRow loads))

/-- `Database.get_alert_by_id`: `SELECT * FROM alerts WHERE id = ?`,
`fetchone`, decode `meta`. -/
def get_alert_by_id {μ : Type} (loads : String → Option μ) (db : List AlertRow)
    (aid : String) : Option (AlertView μ) :=
  (db.find? (fun r => decide (r.id = aid))).map (viewRow loads)

def setAck (r : AlertRow) : AlertRow :=
  ⟨r.id, r.timestamp, r.status, r.identity, r.confidence, r.angle, r.distance,
    r.snapshot_path, true, r.meta⟩

/-- `Database.acknowledge_alert`: `UPDATE alerts SET acknowledged = 1 WHERE
id = ?` then `cursor.rowcount > 0`.  SQLite's change counter counts every
row matched by the WHERE clause, whether or not the stored value differed,
so the Bool is `(#rows with this id) > 0`. -/
def acknowledge_alert (db : List AlertRow) (aid : String) : List AlertRow × Bool :=
  (db.map (fun r => if r.id = aid then setAck r else r),
    decide (0 < (db.filter (fun r => decide (r.id = aid))).length))

/-! ## Whitelist (`backend/database.py`) -/

/-- A row of the `whitelist` table (`sample_images` is the serialized TEXT
column, `enc_count = len(sample_images)` at insert time). -/
structure WhitelistRow where
  id : Nat
  name : String
  sample_images : String
  enc_count : Nat
  created_at : Int
deriving DecidableEq

/-- The `whitelist` table plus its AUTOINCREMENT sequence counter. -/
structure WhitelistStore where
  rows : List WhitelistRow
  seq : Nat
deriving DecidableEq

/-- `Database.add_whitelist_person`: `INSERT OR REPLACE` keyed on the
UNIQUE `name` column deletes any row with that name and inserts a fresh
row (fresh AUTOINCREMENT id); `cursor.lastrowid` is returned. -/
def add_whitelist_person (dumpsL : List String → String) (st : WhitelistStore)
    (name : String) (imgs : List String) (now : Int) : WhitelistStore × Nat :=
  (⟨st.rows.filter (fun r => decide (r.name ≠ name)) ++
      [⟨st.seq + 1, name, dumpsL imgs, imgs.length, now⟩], st.seq + 1⟩,
    st.seq + 1)

/-- A whitelist dict as returned to callers. -/
structure WhitelistView where
  id : Nat
  name : String
  sample_images : MetaField (List String)
  enc_count : Nat
  created_at : Int
deriving DecidableEq

def viewWRow (loadsL : String → Option (List String)) (r : WhitelistRow) :
    WhitelistView :=
  ⟨r.id, r.name, decodeField loadsL r.sample_images, r.enc_count, r.created_at⟩

/-- `ORDER BY name` as a relation on whitelist rows. -/
def wlByName : WhitelistRow → WhitelistRow → Prop := fun a b => a.name ≤ b.name

instance : DecidableRel wlByName :=
  fun a b => inferInstanceAs (Decidable (a.name ≤ b.name))

instance : IsTotal WhitelistRow wlByName := ⟨fun a b => le_total a.name b.name⟩

instance : IsTrans WhitelistRow wlByName := ⟨fun _ _ _ h1 h2 => le_trans h1 h2⟩

/-- `Database.get_whitelist`: `SELECT * FROM whitelist ORDER BY name`,
decode `sample_images` for each row. -/
def get_whitelist (loadsL : String → Option (List String)) (st : WhitelistStore) :
    List WhitelistView :=
  (List.insertionSort wlByName st.rows).map (viewWRow loadsL)

/-! ## CommandInterpreter (`backend/nlp_handler.py`) -/

/-- The `data` dict attached to a status response. -/
structure StatusData where
  total : Nat
  unacknowledged : Nat
  friendly : Nat
  unknown : Nat
  suspicious : Nat
deriving DecidableEq

/-- The dict returned by `NLPHandler.process_command`. -/
structure NLPResponse where
  intent : String
  text : String
  action : Option String
  data : Option StatusData
deriving DecidableEq

def statusKeywords : List String := ["status", "report", "what", "how many"]
def stopKeywords : List String := ["stop", "halt", "pause"]
def startKeywords : List String := ["start", "resume", "begin", "patrol"]
def followKeywords : List String := ["follow"]
def homeKeywords : List String := ["home", "return", "base"]
def greetKeywords : List String := ["greet", "hello", "hi", "wave"]
def investigateKeywords : List String := ["investigate", "check", "inspect"]
def alarmKeywords : List String := ["alarm", "alert", "sound"]

def stopResponse : NLPResponse :=
  ⟨"stop", "Patrol stopped. Awaiting further instructions.", some "stop_patrol", none⟩
def startResponse : NLPResponse :=
  ⟨"start", "Patrol started. Monitoring for intruders.", some "start_patrol", none⟩
def followResponse : NLPResponse :=
  ⟨"follow", "Following mode activated. I will track the target.", some "follow", none⟩
def homeResponse : NLPResponse :=
  ⟨"return_home", "Returning to home position.", some "return_home", none⟩
def greetResponse : NLPResponse :=
  ⟨"greet", "Hello! I am DoggoBot, your security assistant.", some "greet", none⟩
def investigateResponse : NLPResponse :=
  ⟨"investigate", "Investigating the area. Stand by.", some "investigate", none⟩
def alarmResponse : NLPResponse :=
  ⟨"alarm", "Alarm activated!", some "sound_alarm", none⟩
def unknownResponse : NLPResponse :=
  ⟨"unknown",
    "I did not understand that command. Try: status, start, stop, investigate, or return home.",
    none, none⟩

def statusCounts {μ : Type} (alerts : List (AlertView μ)) : StatusData :=
  ⟨alerts.length,
    alerts.countP (fun a => !a.acknowledged),
    alerts.countP (fun a => decide (a.status = "friendly")),
    alerts.countP (fun a => decide (a.status = "unknown")),
    alerts.countP (fun a => decide (a.status = "suspicious"))⟩

def renderStatus (d : StatusData) : String :=
  "System status: " ++ toString d.total ++ " total alerts. " ++
    toString d.unacknowledged ++ " unacknowledged. " ++
    toString d.friendly ++ " friendly, " ++ toString d.unknown ++ " unknown, " ++
    toString d.suspicious ++ " suspicious detections."

/-- `NLPHandler._handle_status`: reads `get_alerts(limit=100)` and counts.
The Python `try` surfaces a meta decode failure from `get_alerts` as an
error-describing response (the diagnostic suffix of `str(e)` is abstracted
to a fixed sentence). -/
def handle_status {μ : Type} (loads : String → Option μ) (db : List AlertRow) :
    NLPResponse :=
  if (get_alerts loads db 100 0 none none).any (fun a => a.meta.isErr) then
    ⟨"status", "Error retrieving status: stored meta could not be decoded", none, none⟩
  else
    ⟨"status", renderStatus (statusCounts (get_alerts loads db 100 0 none none)),
      none, some (statusCounts (get_alerts loads db 100 0 none none))⟩

/-- `NLPHandler.process_command`: lowercase + strip, then the keyword rules
in source order, first match wins. -/
def process_command {μ : Type} (loads : String → Option μ) (db : List AlertRow)
    (text : String) : NLPResponse :=
  if kwHit (normalizeText text) statusKeywords then handle_status loads db
  else if kwHit (normalizeText text) stopKeywords then stopResponse
  else if kwHit (normalizeText text) startKeywords then startResponse
  else if kwHit (normalizeText text) followKeywords then followResponse
  else if kwHit (normalizeText text) homeKeywords then homeResponse
  else if kwHit (normalizeText text) greetKeywords then greetResponse
  else if kwHit (normalizeText text) investigateKeywords then investigateResponse
  else if kwHit (normalizeText text) alarmKeywords then alarmResponse
  else unknownResponse

/-- The spec's ordered rule table (section 4.4): keyword list plus either a
fixed response or `none` marking the AlertStore-dependent status rule. -/
def ruleTable : List (List String × Option NLPResponse) :=
  [(statusKeywords, none),
   (stopKeywords, some stopResponse),
   (startKeywords, some startResponse),
   (followKeywords, some followResponse),
   (homeKeywords, some homeResponse),
   (greetKeywords, some greetResponse),
   (investigateKeywords, some investigateResponse),
   (alarmKeywords, some alarmResponse)]

/-- First rule of the table whose keyword list matches. -/
def firstRule (t : List Char) : List (List String × Option NLPResponse) →
    Option (Option NLPResponse)
  | [] => none
  | r :: rs => if kwHit t r.1 then some r.2 else firstRule t rs

def interpRule {μ : Type} (loads : String → Option μ) (db : List AlertRow) :
    Option (Option NLPResponse) → NLPResponse
  | some none => handle_status loads db
  | some (some resp) => resp
  | none => unknownResponse

/-- The spec's formulation of the interpreter: first matching rule of the
ordered table wins, else the fixed help message. -/
def classifySpec {μ : Type} (loads : String → Option μ) (db : List AlertRow)
    (text : String) : NLPResponse :=
  interpRule loads db (firstRule (normalizeText text) ruleTable)

/-! ## EventBus (`sse_clients` / `broadcast_sse_event` / `sse_stream` in
`backend/main.py`).  A client keeps its `asyncio.Queue` contents in FIFO
order; removal from `sse_clients` (the `finally:` in `sse_stream`) is
recorded by flipping `active` off so that history remains observable.  The
ghost field `log` records every published event in order. -/

structure Client where
  sid : Nat
  active : Bool
  queue : List String
deriving DecidableEq

structure BusState where
  clients : List Client
  nextId : Nat
  log : List String
deriving DecidableEq

def initBus : BusState := ⟨[], 0, []⟩

/-- Delivery of one event to one registered queue (`await queue.put(...)`,
which never fails for an unbounded asyncio queue). -/
def busDeliver (ev : String) (c : Client) : Client :=
  if c.active then ⟨c.sid, c.active, c.queue ++ [ev]⟩ else c

/-- `broadcast_sse_event`: enqueue the event on every registered client
queue; publishing to zero clients is a no-op loop. -/
def broadcast_sse_event (s : BusState) (ev : String) : BusState :=
  ⟨s.clients.map (busDeliver ev), s.nextId, s.log ++ [ev]⟩

/-- `sse_stream` connect: `sse_clients.append(asyncio.Queue())`. -/
def sse_connect (s : BusState) : BusState :=
  ⟨s.clients ++ [⟨s.nextId, true, []⟩], s.nextId + 1, s.log⟩

/-- `sse_stream` teardown: `sse_clients.remove(queue)`. -/
def sse_disconnect (s : BusState) (sid : Nat) : BusState :=
  ⟨s.clients.map (fun c => if c.sid = sid then ⟨c.sid, false, c.queue⟩ else c),
    s.nextId, s.log⟩

inductive BusOp where
  | connect
  | disconnect (sid : Nat)
  | publish (ev : String)
deriving DecidableEq

def busStep (s : BusState) : BusOp → BusState
  | .connect => sse_connect s
  | .disconnect sid => sse_disconnect s sid
  | .publish ev => broadcast_sse_event s ev

def busRun (ops : List BusOp) : BusState := ops.foldl busStep initBus

/-! ## FrameHub (`latest_frame` / `latest_bounding_boxes` under
`frame_lock` in `backend/main.py`) -/

/-- The two globals guarded by `frame_lock`; `latest_frame` starts as
Python `None`, `latest_bounding_boxes` as `[]`. -/
structure FrameState (β : Type) where
  latest_frame : Option (List Nat)
  latest_bounding_boxes : List β
deriving DecidableEq

def initFrame {β : Type} : FrameState β := ⟨none, []⟩

/-- The critical section in `upload_frame`: both globals are assigned
together while holding `frame_lock`. -/
def set_frame {β : Type} (_s : FrameState β) (bytes : List Nat) (boxes : List β) :
    FrameState β :=
  ⟨some bytes, boxes⟩

def frameRun {β : Type} (calls : List (List Nat × List β)) : FrameState β :=
  calls.foldl (fun s c => set_frame s c.1 c.2) initFrame

/-- `get_frame_data`: `if latest_frame:` is Python truthiness, so both
`None` and empty bytes produce the empty sentinel response
`{frame: None, bounding_boxes: [], face_count: 0}` (here `none`); otherwise
the base64 presentation of the bytes, the boxes, and `len(boxes)` are
returned together under the lock (base64 is an injective presentation-layer
encoding and is omitted). -/
def get_frame_data {β : Type} : FrameState β → Option (List Nat × List β × Nat)
  | ⟨some b, boxes⟩ => if b ≠ [] then some (b, boxes, boxes.length) else none
  | ⟨none, _⟩ => none

/-! ## HTTP handlers (`backend/main.py`) -/

/-- Default value of the `API_KEY` environment variable. -/
def API_KEY : String := "doggobot-secret-key-change-me"

/-- `verify_api_key`: exact comparison of the optional header with the
secret; mismatch (including a missing header) raises 401. -/
def verify_ok (k : Option String) : Bool := k == some API_KEY

/-- The JSON body of a successful `POST /frame` response. -/
structure UploadResp (β : Type) where
  status : String
  size : Nat
  face_count : Nat
  bounding_boxes : List β
deriving DecidableEq

/-- The `boxes` local of `upload_frame`: `[]` unless the form field is
truthy, in which case `json.loads` is attempted and a parse failure is
swallowed into `[]`. -/
def boxesOf {β : Type} (parseBoxes : String → Option (List β)) :
    Option String → List β
  | none => []
  | some bs =>
      if bs ≠ "" then
        match parseBoxes bs with
        | some l => l
        | none => []
      else []

/-- `POST /frame` (`upload_frame`): auth check, read bytes, parse boxes
with fallback, store both under the lock, respond with size and
`len(boxes) if boxes else 0`.  The separately submitted `face_count` form
field is accepted but never used. -/
def upload_frame {β : Type} (parseBoxes : String → Option (List β))
    (key : Option String) (frameBytes : List Nat) (bounding_boxes : Option String)
    (face_count_field : Option Int) (s : FrameState β) :
    FrameState β × Except (Nat × String) (UploadResp β) :=
  if verify_ok key then
    (set_frame s frameBytes (boxesOf parseBoxes bounding_boxes),
      Except.ok ⟨"ok", frameBytes.length,
        if (boxesOf parseBoxes bounding_boxes).isEmpty then 0
        else (boxesOf parseBoxes bounding_boxes).length,
        boxesOf parseBoxes bounding_boxes⟩)
  else (s, Except.error (401, "Invalid API key"))

/-- The server state touched by `POST /alert`: the alerts table, the saved
snapshot files, and the SSE bus. -/
structure ServerState where
  db : List AlertRow
  snapshots : List String
  bus : BusState
deriving DecidableEq

def snapPath (aid : String) : String := "static/snapshots/" ++ aid ++ ".jpg"

def withId {μ : Type} (a : AlertDraft μ) (now : Int) : AlertDraft μ :=
  ⟨some (genAlertId now), a.timestamp, a.status, a.identity, a.confidence,
    a.angle, a.distance, a.snapshot_path, a.meta⟩

def withSnap {μ : Type} (a : AlertDraft μ) (now : Int) : AlertDraft μ :=
  ⟨a.id, a.timestamp, a.status, a.identity, a.confidence, a.angle, a.distance,
    some (snapPath (genAlertId now)), a.meta⟩

/-- `POST /alert` (`create_alert`): auth check, `json.loads(payload)`
(parse failure raises 400 before any side effect), id assignment, optional
snapshot file write, insert, SSE broadcast.  An insert failure raises 500
after the snapshot file was already written. -/
def create_alert {μ : Type} (parsePayload : String → Option (AlertDraft μ))
    (dumps : μ → String) (emptyJson : μ) (now : Int) (st : ServerState)
    (payload : String) (snapshot : Option (List Nat)) (key : Option String) :
    ServerState × Except (Nat × String) String :=
  if verify_ok key then
    match parsePayload payload with
    | none => (st, Except.error (400, "Invalid JSON payload"))
    | some a0 =>
      match snapshot with
      | some _bytes =>
        (match insert_alert dumps emptyJson now st.db (withSnap (withId a0 now) now) with
         | none =>
             (⟨st.db, st.snapshots ++ [snapPath (genAlertId now)], st.bus⟩,
               Except.error (500, "insert failed"))
         | some (db2, _rid) =>
             (⟨db2, st.snapshots ++ [snapPath (genAlertId now)],
                broadcast_sse_event st.bus "alert"⟩,
               Except.ok (genAlertId now)))
      | none =>
        (match insert_alert dumps emptyJson now st.db (withId a0 now) with
         | none => (st, Except.error (500, "insert failed"))
         | some (db2, _rid) =>
             (⟨db2, st.snapshots, broadcast_sse_event st.bus "alert"⟩,
               Except.ok (genAlertId now)))
  else (st, Except.error (401, "Invalid API key"))

/-! ## Concrete fixtures used by counterexamples and witnesses -/

/-- Trivial decoder for a `Unit` meta blob. -/
def loadsU : String → Option Unit := fun _ => some ()

/-- An alert row with status `"x"` and empty meta text. -/
def rowX : AlertRow := ⟨"a", 0, "x", none, none, none, none, none, false, ""⟩

/-- An unacknowledged suspicious alert row. -/
def rowS : AlertRow := ⟨"a", 0, "suspicious", none, none, none, none, none, false, ""⟩

/-- A store holding 101 alerts (one more than the hard-coded
`limit=100` in `_handle_status`). -/
def db101 : List AlertRow := List.replicate 101 rowS

/-- An acknowledged friendly alert row. -/
def rowF : AlertRow := ⟨"b", 1, "friendly", none, none, none, none, none, true, ""⟩

/-- A fully populated draft for witness evaluation. -/
def draftC1 : AlertDraft Unit :=
  ⟨some "a", some 5, some "suspicious", some "bob", some 1, some 2, some 3,
    some "p", some ()⟩

/-!
# Theorems
-/

/-! ## General helper lemmas -/

theorem find?_append_of_none {α : Type} (p : α → Bool) (l₁ l₂ : List α)
    (h : ∀ x ∈ l₁, p x = false) :
    List.find? p (l₁ ++ l₂) = List.find? p l₂ := by
  induction l₁ with
  | nil => rfl
  | cons x xs ih =>
    have hx : p x = false := h x (List.mem_cons_self x xs)
    rw [List.cons_append, List.find?_cons, hx]
    exact ih (fun y hy => h y (List.mem_cons_of_mem x hy))

theorem decide_filter_pos_eq_any {α : Type} (p : α → Bool) (l : List α) :
    decide (0 < (l.filter p).length) = l.any p := by
  induction l with
  | nil => rfl
  | cons x xs ih =>
    cases hx : p x <;> simp [List.filter_cons, hx, ← ih]

theorem filter_map_length {α : Type} (f : α → α) (p : α → Bool) (l : List α)
    (h : ∀ a, p (f a) = p a) :
    ((l.map f).filter p).length = (l.filter p).length := by
  induction l with
  | nil => rfl
  | cons x xs ih =>
    cases hx : p x <;> simp [List.filter_cons, hx, h x, ih]

theorem take_drop_slice {α : Type} (o l : Nat) (L : List α) :
    (L.drop o).take l = (L.take (o + l)).drop o := by
  induction o generalizing L with
  | zero => simp
  | succ k ih =>
    cases L with
    | nil => simp
    | cons x xs =>
      have h2 : k + 1 + l = (k + l) + 1 := by omega
      rw [List.drop_succ_cons, ih xs, h2, List.take_succ_cons, List.drop_succ_cons]

/-! ## Claim C2 -/

/-- Counterexample to claim C2 as stated: SQLite's change counter counts
rows matched by the UPDATE whether or not the stored value changed, so the
second `acknowledge_alert` call on the same existing id returns `true`,
not `false` (and `main.py` relies on this by mapping `false` to 404). -/
theorem acknowledge_twice_cex :
    (acknowledge_alert [rowS] "a").2 = true ∧
    (acknowledge_alert (acknowledge_alert [rowS] "a").1 "a").2 = true :=
  ⟨rfl, rfl⟩

/-- Claim C2 (amended): `acknowledge_alert` returns `true` exactly when
the id is present in the store — on every call, not only the first; it
sets `acknowledged` on the matching row, leaves other rows untouched, and
a repeated call changes neither the stored state nor the returned value. -/
theorem acknowledge_alert_semantics (db : List AlertRow) (aid : String) :
    ((acknowledge_alert db aid).2 = db.any (fun r => decide (r.id = aid))) ∧
    (∀ r ∈ (acknowledge_alert db aid).1, r.id = aid → r.acknowledged = true) ∧
    (∀ r ∈ db, r.id ≠ aid → r ∈ (acknowledge_alert db aid).1) ∧
    ((acknowledge_alert (acknowledge_alert db aid).1 aid).1 =
      (acknowledge_alert db aid).1) ∧
    ((acknowledge_alert (acknowledge_alert db aid).1 aid).2 =
      (acknowledge_alert db aid).2) := by
  refine ⟨decide_filter_pos_eq_any _ db, ?_, ?_, ?_, ?_⟩
  · intro r hr hid
    obtain ⟨a, ha, rfl⟩ := List.mem_map.mp hr
    by_cases h : a.id = aid
    · rw [if_pos h]; rfl
    · rw [if_neg h] at hid ⊢; exact absurd hid h
  · intro r hr hne
    have heq : (if r.id = aid then setAck r else r) = r := if_neg hne
    exact heq ▸ List.mem_map_of_mem _ hr
  · show List.map _ (List.map _ db) = List.map _ db
    rw [List.map_map]
    have hff : (fun r : AlertRow => if r.id = aid then setAck r else r) ∘
        (fun r : AlertRow => if r.id = aid then setAck r else r) =
        (fun r : AlertRow => if r.id = aid then setAck r else r) := by
      funext a
      by_cases h : a.id = aid
      · simp only [Function.comp, if_pos h]
        have h2 : (setAck a).id = aid := h
        rw [if_pos h2]
        rfl
      · simp only [Function.comp, if_neg h]
    rw [hff]
  · have hp : ∀ a : AlertRow,
        decide ((if a.id = aid then setAck a else a).id = aid) =
          decide (a.id = aid) := by
      intro a
      by_cases h : a.id = aid
      · rw [if_pos h]
        rfl
      · rw [if_neg h]
    unfold acknowledge_alert
    rw [filter_map_length (fun r : AlertRow => if r.id = aid then setAck r else r)
      (fun r : AlertRow => decide (r.id = aid)) db hp]

/-- Witness for the amended C2 theorem at a one-row store. -/
theorem acknowledge_alert_semantics_w :
    ((acknowledge_alert [rowS] "a").2 =
      [rowS].any (fun r => decide (r.id = "a"))) ∧
    (setAck rowS).acknowledged = true :=
  ⟨(acknowledge_alert_semantics [rowS] "a").1,
   (acknowledge_alert_semantics [rowS] "a").2.1 (setAck rowS) (by decide) (by decide)⟩

/-! ## Claim C8 -/

theorem frameRun_append_single {β : Type} (calls : List (List Nat × List β))
    (b : List Nat) (d : List β) :
    frameRun (calls ++ [(b, d)]) = ⟨some b, d⟩ := by
  unfold frameRun
  rw [List.foldl_append]
  rfl

/-- Counterexample to claim C8 as stated: `get_frame_data` tests the frame
bytes for Python truthiness, so a most-recent upload with empty bytes (and
a nonempty detection list) yields the empty sentinel instead of the pair
from that call. -/
theorem frame_lww_cex :
    get_frame_data (frameRun ([(([] : List Nat), [7])] : List (List Nat × List Nat))) = none ∧
    (none ≠ some (([] : List Nat), ([7] : List Nat), 1)) :=
  ⟨rfl, by decide⟩

/-- Claim C8 (amended): any pair returned by `get_frame_data` originates
from a single `set_frame` call together with its box count (torn-free);
after a sequence of calls whose last call has nonempty bytes, the result
is exactly that last call; a last call with empty bytes makes
`get_frame_data` report empty. -/
theorem frame_consistency (β : Type) :
    (∀ (calls : List (List Nat × List β)) (b : List Nat) (d : List β) (n : Nat),
        get_frame_data (frameRun calls) = some (b, d, n) →
        ((b, d) ∈ calls ∧ n = d.length)) ∧
    (∀ (calls : List (List Nat × List β)) (b : List Nat) (d : List β),
        b ≠ [] → get_frame_data (frameRun (calls ++ [(b, d)])) = some (b, d, d.length)) ∧
    (∀ (calls : List (List Nat × List β)) (d : List β),
        get_frame_data (frameRun (calls ++ [([], d)])) = none) := by
  refine ⟨?_, ?_, ?_⟩
  · intro calls
    induction calls using List.reverseRecOn with
    | nil =>
      intro b d n h
      exact absurd h (by simp [frameRun, initFrame, get_frame_data])
    | append_singleton l c _ih =>
      obtain ⟨cb, cd⟩ := c
      intro b d n h
      rw [frameRun_append_single] at h
      simp only [get_frame_data] at h
      by_cases hcb : cb ≠ []
      · rw [if_pos hcb] at h
        obtain ⟨rfl, rfl, rfl⟩ : cb = b ∧ cd = d ∧ cd.length = n := by
          injection h with h2
          exact ⟨congrArg Prod.fst h2, congrArg (fun x => x.2.1) h2,
            congrArg (fun x => x.2.2) h2⟩
        exact ⟨List.mem_append_right l (List.mem_singleton.mpr rfl), rfl⟩
      · rw [if_neg hcb] at h
        exact absurd h (by simp)
  · intro calls b d hb
    rw [frameRun_append_single]
    simp only [get_frame_data]
    rw [if_pos hb]
  · intro calls d
    rw [frameRun_append_single]
    simp [get_frame_data]

/-- Witness for the amended C8 theorem: one concrete nonempty upload. -/
theorem frame_consistency_w :
    get_frame_data (frameRun ([([1], [5])] : List (List Nat × List Nat))) =
      some ([1], [5], 1) :=
  (frame_consistency Nat).2.1 [] [1] [5] (by decide)

/-! ## Claim C10 -/

/-- Claim C10: a present but unparseable `bounding_boxes` form field does
not reject the upload: the frame bytes are stored, the stored detection
list becomes `[]`, and the response reports `face_count = 0` from that
parsed list, ignoring the submitted `face_count` form field entirely. -/
theorem frame_malformed_boxes (β : Type) (parseBoxes : String → Option (List β))
    (s : FrameState β) (fb : List Nat) (bb : String) (fc : Option Int)
    (hpb : parseBoxes bb = none) (hbb : bb ≠ "") :
    upload_frame parseBoxes (some API_KEY) fb (some bb) fc s =
      (⟨some fb, []⟩, Except.ok ⟨"ok", fb.length, 0, []⟩) := by
  have hbx : boxesOf parseBoxes (some bb) = [] := by
    simp only [boxesOf]
    rw [if_pos hbb, hpb]
  unfold upload_frame
  rw [if_pos (by rfl : verify_ok (some API_KEY) = true), hbx]
  rfl

/-- Witness for C10 at a concrete malformed payload. -/
theorem frame_malformed_boxes_w :
    upload_frame (fun _ => (none : Option (List Nat))) (some API_KEY) [1]
        (some "oops") none initFrame =
      (⟨some [1], []⟩, Except.ok ⟨"ok", 1, 0, []⟩) :=
  frame_malformed_boxes Nat (fun _ => none) initFrame [1] "oops" none rfl (by decide)

/-! ## Claim C9 -/

/-- Counterexample to claim C9 as stated: `POST /frame` with a malformed
`bounding_boxes` JSON value is not rejected — it succeeds and persists the
frame (the malformed detections are silently dropped). -/
theorem validation_cex_frame :
    upload_frame (fun _ => (none : Option (List Nat))) (some API_KEY) [2]
        (some "not json") none initFrame =
      (⟨some [2], []⟩, Except.ok ⟨"ok", 1, 0, []⟩) ∧
    (⟨some [2], []⟩ : FrameState Nat).latest_frame ≠
      (initFrame : FrameState Nat).latest_frame :=
  ⟨rfl, by decide⟩

/-- Claim C9 (amended): `POST /alert` with an unparseable payload JSON is
rejected with 400 and the server state (store, snapshots, event bus) is
returned unchanged with nothing broadcast; `POST /frame`, however, does
not validate its `bounding_boxes` JSON — a malformed value is accepted,
the frame is persisted and the detections are dropped (missing required
form fields are rejected by the framework before the handler runs). -/
theorem validation_contract (μ : Type)
    (parsePayload : String → Option (AlertDraft μ)) (dumps : μ → String)
    (emptyJson : μ) (now : Int) :
    (∀ (st : ServerState) (payload : String) (snapshot : Option (List Nat)),
        parsePayload payload = none →
        create_alert parsePayload dumps emptyJson now st payload snapshot
            (some API_KEY) =
          (st, Except.error (400, "Invalid JSON payload"))) ∧
    (∀ (β : Type) (parseBoxes : String → Option (List β)) (s : FrameState β)
        (fb : List Nat) (bb : String) (fc : Option Int),
        parseBoxes bb = none → bb ≠ "" →
        ((upload_frame parseBoxes (some API_KEY) fb (some bb) fc s).1.latest_frame =
            some fb ∧
          (upload_frame parseBoxes (some API_KEY) fb (some bb) fc s).2 =
            Except.ok ⟨"ok", fb.length, 0, []⟩)) := by
  constructor
  · intro st payload snapshot hpp
    unfold create_alert
    rw [if_pos (by rfl : verify_ok (some API_KEY) = true), hpp]
  · intro β parseBoxes s fb bb fc hpb hbb
    have hbx : boxesOf parseBoxes (some bb) = [] := by
      simp only [boxesOf]
      rw [if_pos hbb, hpb]
    unfold upload_frame
    rw [if_pos (by rfl : verify_ok (some API_KEY) = true), hbx]
    exact ⟨rfl, rfl⟩

/-- Witness for the amended C9 theorem at a concrete malformed payload. -/
theorem validation_contract_w :
    create_alert (fun _ => (none : Option (AlertDraft Unit))) (fun _ => "m") () 0
        ⟨[], [], initBus⟩ "oops" none (some API_KEY) =
      (⟨[], [], initBus⟩, Except.error (400, "Invalid JSON payload")) :=
  (validation_contract Unit (fun _ => none) (fun _ => "m") () 0).1
    ⟨[], [], initBus⟩ "oops" none rfl

/-! ## Claim C1 -/

/-- Claim C1: inserting a valid alert draft and reading it back by the
returned id yields a record with `acknowledged = false`, every submitted
field intact, and the meta blob preserved opaquely through the
serialize/deserialize round trip. -/
theorem insert_then_get_intact (μ : Type) (dumps : μ → String)
    (loads : String → Option μ) (emptyJson : μ) (db : List AlertRow)
    (a : AlertDraft μ) (now : Int) (db2 : List AlertRow) (aid : String)
    (hins : insert_alert dumps emptyJson now db a = some (db2, aid))
    (hcodec : ∀ m, a.meta = some m → (loads (dumps m) = some m ∧ dumps m ≠ "")) :
    ∃ v : AlertView μ, get_alert_by_id loads db2 aid = some v ∧
      v.acknowledged = false ∧ v.id = aid ∧
      (∀ ts, a.timestamp = some ts → v.timestamp = ts) ∧
      (∀ s, a.status = some s → v.status = s) ∧
      v.identity = a.identity ∧ v.confidence = a.confidence ∧
      v.angle = a.angle ∧ v.distance = a.distance ∧
      v.snapshot_path = a.snapshot_path ∧
      (∀ m, a.meta = some m → v.meta = MetaField.parsed m) := by
  unfold insert_alert at hins
  by_cases hdup : db.any (fun r => decide (r.id = a.id.getD (genAlertId now))) = true
  · rw [if_pos hdup] at hins
    exact absurd hins (by simp)
  · rw [if_neg hdup] at hins
    obtain ⟨hdb2, haid⟩ : db ++ [draftRow dumps emptyJson now a] = db2 ∧
        a.id.getD (genAlertId now) = aid := by
      injection hins with h
      exact ⟨congrArg Prod.fst h, congrArg Prod.snd h⟩
    subst hdb2
    subst haid
    have hnone : ∀ r ∈ db, (fun r : AlertRow =>
        decide (r.id = a.id.getD (genAlertId now))) r = false := by
      intro r hr
      cases hx : decide (r.id = a.id.getD (genAlertId now)) with
      | false => exact hx
      | true => exact absurd (List.any_eq_true.mpr ⟨r, hr, hx⟩) hdup
    have hfind : get_alert_by_id loads (db ++ [draftRow dumps emptyJson now a])
        (a.id.getD (genAlertId now)) =
        some (viewRow loads (draftRow dumps emptyJson now a)) := by
      unfold get_alert_by_id
      rw [find?_append_of_none _ db _ hnone]
      have : List.find? (fun r : AlertRow =>
          decide (r.id = a.id.getD (genAlertId now)))
          [draftRow dumps emptyJson now a] =
          some (draftRow dumps emptyJson now a) := by
        rw [List.find?_cons]
        have hid : decide ((draftRow dumps emptyJson now a).id =
            a.id.getD (genAlertId now)) = true := by
          exact decide_eq_true rfl
        rw [hid]
      rw [this]
      rfl
    refine ⟨viewRow loads (draftRow dumps emptyJson now a), hfind, rfl, rfl,
      ?_, ?_, rfl, rfl, rfl, rfl, rfl, ?_⟩
    · intro ts hts
      show (a.timestamp.getD now) = ts
      rw [hts]
      rfl
    · intro s hs
      show (a.status.getD "unknown") = s
      rw [hs]
      rfl
    · intro m hm
      show decodeField loads (dumps (a.meta.getD emptyJson)) = MetaField.parsed m
      rw [hm]
      show decodeField loads (dumps m) = MetaField.parsed m
      unfold decodeField
      rw [if_neg (hcodec m hm).2, (hcodec m hm).1]

/-- Witness for C1 at a concrete draft with every field submitted. -/
theorem insert_then_get_intact_w :
    ∃ v : AlertView Unit,
      get_alert_by_id loadsU [draftRow (fun _ => "m") () 0 draftC1] "a" = some v ∧
      v.acknowledged = false ∧ v.id = "a" ∧
      (∀ ts, draftC1.timestamp = some ts → v.timestamp = ts) ∧
      (∀ s, draftC1.status = some s → v.status = s) ∧
      v.identity = draftC1.identity ∧ v.confidence = draftC1.confidence ∧
      v.angle = draftC1.angle ∧ v.distance = draftC1.distance ∧
      v.snapshot_path = draftC1.snapshot_path ∧
      (∀ m, draftC1.meta = some m → v.meta = MetaField.parsed m) :=
  insert_then_get_intact Unit (fun _ => "m") loadsU () [] draftC1 0
    [draftRow (fun _ => "m") () 0 draftC1] "a" rfl
    (fun _m _hm => ⟨rfl, show ("m" : String) ≠ "" by decide⟩)

/-! ## Claim C7 -/

theorem bus_queue_sublist_step (s : BusState) (op : BusOp)
    (h : ∀ c ∈ s.clients, c.queue.Sublist s.log) :
    ∀ c ∈ (busStep s op).clients, c.queue.Sublist (busStep s op).log := by
  intro c hc
  cases op with
  | connect =>
    rcases List.mem_append.mp hc with h1 | h1
    · exact h c h1
    · rw [List.mem_singleton] at h1
      subst h1
      exact List.nil_sublist _
  | disconnect sid =>
    obtain ⟨a, ha, rfl⟩ := List.mem_map.mp hc
    by_cases hs : a.sid = sid
    · rw [if_pos hs]
      exact h a ha
    · rw [if_neg hs]
      exact h a ha
  | publish ev =>
    obtain ⟨a, ha, rfl⟩ := List.mem_map.mp hc
    unfold busDeliver
    by_cases hact : a.active = true
    · rw [if_pos hact]
      exact List.Sublist.append (h a ha) (List.Sublist.refl [ev])
    · rw [if_neg hact]
      exact (h a ha).trans (List.sublist_append_left s.log [ev])

theorem bus_run_sublist (ops : List BusOp) :
    ∀ c ∈ (busRun ops).clients, c.queue.Sublist (busRun ops).log := by
  have main : ∀ (l : List BusOp) (s : BusState),
      (∀ c ∈ s.clients, c.queue.Sublist s.log) →
      ∀ c ∈ (l.foldl busStep s).clients, c.queue.Sublist (l.foldl busStep s).log := by
    intro l
    induction l with
    | nil => intro s h; simpa using h
    | cons op rest ih =>
      intro s h
      exact ih (busStep s op) (bus_queue_sublist_step s op h)
  intro c hc
  exact main ops initBus (by intro c hc; simp [initBus] at hc) c hc

/-- Claim C7: publishing with zero registered subscribers is a harmless
no-op on the registry; every live (active) subscriber receives every
published event at the tail of its queue; a subscriber that unsubscribed
before a publish is left untouched by it; and over any operation sequence
each subscriber's queue is an in-order sublist of the publish log
(per-subscriber FIFO). -/
theorem eventbus_contract :
    (∀ (n : Nat) (log : List String) (ev : String),
        broadcast_sse_event ⟨[], n, log⟩ ev = ⟨[], n, log ++ [ev]⟩) ∧
    (∀ (s : BusState) (ev : String), ∀ c ∈ s.clients, c.active = true →
        (⟨c.sid, true, c.queue ++ [ev]⟩ : Client) ∈ (broadcast_sse_event s ev).clients) ∧
    (∀ (s : BusState) (ev : String), ∀ c ∈ s.clients, c.active = false →
        c ∈ (broadcast_sse_event s ev).clients) ∧
    (∀ (ops : List BusOp), ∀ c ∈ (busRun ops).clients,
        c.queue.Sublist (busRun ops).log) := by
  refine ⟨fun n log ev => rfl, ?_, ?_, bus_run_sublist⟩
  · intro s ev c hc ha
    have hmem := List.mem_map_of_mem (busDeliver ev) hc
    have heq : busDeliver ev c = ⟨c.sid, true, c.queue ++ [ev]⟩ := by
      unfold busDeliver
      rw [if_pos ha, ha]
    exact heq ▸ hmem
  · intro s ev c hc ha
    have hmem := List.mem_map_of_mem (busDeliver ev) hc
    have heq : busDeliver ev c = c := by
      unfold busDeliver
      rw [if_neg (by rw [ha]; exact Bool.false_ne_true)]
    exact heq ▸ hmem

/-- Witness for C7: one subscriber connects, one event is published; the
subscriber receives it and its queue is a sublist of the publish log. -/
theorem eventbus_contract_w :
    ((⟨0, true, ["a"]⟩ : Client) ∈
        (broadcast_sse_event ⟨[⟨0, true, []⟩], 1, []⟩ "a").clients) ∧
    (⟨0, true, ["a"]⟩ : Client).queue.Sublist
      (busRun [BusOp.connect, BusOp.publish "a"]).log :=
  ⟨eventbus_contract.2.1 ⟨[⟨0, true, []⟩], 1, []⟩ "a" ⟨0, true, []⟩ (by decide) rfl,
   eventbus_contract.2.2.2 [BusOp.connect, BusOp.publish "a"] ⟨0, true, ["a"]⟩
     (by decide)⟩

/-! ## Claim C4 -/

theorem process_eq_spec {μ : Type} (loads : String → Option μ) (db : List AlertRow)
    (text : String) :
    process_command loads db text = classifySpec loads db text := by
  unfold process_command classifySpec
  by_cases h1 : kwHit (normalizeText text) statusKeywords = true
  · simp [firstRule, ruleTable, interpRule, h1]
  · by_cases h2 : kwHit (normalizeText text) stopKeywords = true
    · simp [firstRule, ruleTable, interpRule, h1, h2]
    · by_cases h3 : kwHit (normalizeText text) startKeywords = true
      · simp [firstRule, ruleTable, interpRule, h1, h2, h3]
      · by_cases h4 : kwHit (normalizeText text) followKeywords = true
        · simp [firstRule, ruleTable, interpRule, h1, h2, h3, h4]
        · by_cases h5 : kwHit (normalizeText text) homeKeywords = true
          · simp [firstRule, ruleTable, interpRule, h1, h2, h3, h4, h5]
          · by_cases h6 : kwHit (normalizeText text) greetKeywords = true
            · simp [firstRule, ruleTable, interpRule, h1, h2, h3, h4, h5, h6]
            · by_cases h7 : kwHit (normalizeText text) investigateKeywords = true
              · simp [firstRule, ruleTable, interpRule, h1, h2, h3, h4, h5, h6, h7]
              · by_cases h8 : kwHit (normalizeText text) alarmKeywords = true
                · simp [firstRule, ruleTable, interpRule, h1, h2, h3, h4, h5, h6, h7, h8]
                · simp [firstRule, ruleTable, interpRule, h1, h2, h3, h4, h5, h6, h7, h8]

/-- Claim C4: the interpreter equals first-match evaluation of the fixed
priority rule table (case-insensitive keyword containment, later rules
not consulted once one matches); in particular any input matching a
status keyword classifies as `status` even if later rules' keywords also
appear, and `classify("please stop now")` yields intent `stop` with
action `stop_patrol`. -/
theorem classify_priority (μ : Type) (loads : String → Option μ) :
    (∀ (db : List AlertRow) (text : String),
        process_command loads db text = classifySpec loads db text) ∧
    (∀ (db : List AlertRow) (text : String),
        kwHit (normalizeText text) statusKeywords = true →
        (process_command loads db text).intent = "status") ∧
    (∀ db : List AlertRow, process_command loads db "please stop now" = stopResponse) := by
  refine ⟨fun db text => process_eq_spec loads db text, ?_, ?_⟩
  · intro db text h
    unfold process_command
    rw [if_pos h]
    unfold handle_status
    split <;> rfl
  · intro db
    rfl

/-- Witness for C4: an input containing both a status and a stop keyword
classifies as `status`. -/
theorem classify_priority_w :
    (process_command loadsU [] "status then stop").intent = "status" :=
  (classify_priority Unit loadsU).2.1 [] "status then stop" (by decide)

/-! ## Claim C6 -/

theorem countP_filter_ne_zero (name : String) (l : List WhitelistRow) :
    (l.filter (fun r => decide (r.name ≠ name))).countP
      (fun r => decide (r.name = name)) = 0 := by
  rw [List.countP_eq_zero]
  intro a ha
  have h2 := (List.mem_filter.mp ha).2
  simp only [decide_eq_true_eq] at h2 ⊢
  exact h2

theorem whitelist_upsert_post (dumpsL : List String → String) (st : WhitelistStore)
    (name : String) (imgs : List String) (now : Int) :
    ((add_whitelist_person dumpsL st name imgs now).1.rows.countP
        (fun r => decide (r.name = name)) = 1) ∧
    (∀ r ∈ (add_whitelist_person dumpsL st name imgs now).1.rows,
        r.name = name → r = ⟨st.seq + 1, name, dumpsL imgs, imgs.length, now⟩) := by
  constructor
  · show List.countP _ (st.rows.filter (fun r => decide (r.name ≠ name)) ++
      [⟨st.seq + 1, name, dumpsL imgs, imgs.length, now⟩]) = 1
    rw [List.countP_append, countP_filter_ne_zero]
    simp
  · intro r hr hname
    replace hr : r ∈ st.rows.filter (fun r => decide (r.name ≠ name)) ++
      [⟨st.seq + 1, name, dumpsL imgs, imgs.length, now⟩] := hr
    rcases List.mem_append.mp hr with h1 | h1
    · have h2 := (List.mem_filter.mp h1).2
      simp only [decide_eq_true_eq] at h2
      exact absurd hname h2
    · exact List.mem_singleton.mp h1

/-- Claim C6: re-adding an existing name fully replaces the record
(last-write-wins): after adding `name` with three images and re-adding it
with one image, the whitelist holds exactly one record for that name, its
image list is exactly the new one-element list with `enc_count` equal to
its length, and the listing is ordered by name. -/
theorem whitelist_upsert_replace (dumpsL : List String → String)
    (loadsL : String → Option (List String)) (st : WhitelistStore)
    (name : String) (imgs3 imgs1 : List String) (t1 t2 : Int)
    (hrt : loadsL (dumpsL imgs1) = some imgs1) (hne : dumpsL imgs1 ≠ "") :
    ((get_whitelist loadsL (add_whitelist_person dumpsL
          (add_whitelist_person dumpsL st name imgs3 t1).1 name imgs1 t2).1).countP
        (fun v => decide (v.name = name)) = 1) ∧
    (∀ v ∈ get_whitelist loadsL (add_whitelist_person dumpsL
          (add_whitelist_person dumpsL st name imgs3 t1).1 name imgs1 t2).1,
        v.name = name →
          v.sample_images = MetaField.parsed imgs1 ∧ v.enc_count = imgs1.length) ∧
    List.Pairwise (fun a b : WhitelistView => a.name ≤ b.name)
      (get_whitelist loadsL (add_whitelist_person dumpsL
          (add_whitelist_person dumpsL st name imgs3 t1).1 name imgs1 t2).1) := by
  obtain ⟨hcount, hval⟩ := whitelist_upsert_post dumpsL
    (add_whitelist_person dumpsL st name imgs3 t1).1 name imgs1 t2
  refine ⟨?_, ?_, ?_⟩
  · unfold get_whitelist
    rw [List.countP_map, List.Perm.countP_eq _ (List.perm_insertionSort wlByName _)]
    have hfn : ((fun v : WhitelistView => decide (v.name = name)) ∘ viewWRow loadsL) =
        (fun r : WhitelistRow => decide (r.name = name)) := rfl
    rw [hfn]
    exact hcount
  · intro v hv hname
    unfold get_whitelist at hv
    obtain ⟨r, hr, rfl⟩ := List.mem_map.mp hv
    have hr2 : r ∈ (add_whitelist_person dumpsL
        (add_whitelist_person dumpsL st name imgs3 t1).1 name imgs1 t2).1.rows :=
      ((List.perm_insertionSort wlByName _).mem_iff).mp hr
    have hrv := hval r hr2 hname
    subst hrv
    constructor
    · show decodeField loadsL (dumpsL imgs1) = MetaField.parsed imgs1
      unfold decodeField
      rw [if_neg hne, hrt]
    · rfl
  · unfold get_whitelist
    rw [List.pairwise_map]
    exact List.sorted_insertionSort wlByName _

/-- Witness for C6: "Alice" with three images, then with one image. -/
theorem whitelist_upsert_replace_w :
    ((get_whitelist (fun _ => some ["i"]) (add_whitelist_person (fun _ => "e")
          (add_whitelist_person (fun _ => "e") ⟨[], 0⟩ "Alice" ["a", "b", "c"] 1).1
          "Alice" ["i"] 2).1).countP
        (fun v => decide (v.name = "Alice")) = 1) ∧
    (∀ v ∈ get_whitelist (fun _ => some ["i"]) (add_whitelist_person (fun _ => "e")
          (add_whitelist_person (fun _ => "e") ⟨[], 0⟩ "Alice" ["a", "b", "c"] 1).1
          "Alice" ["i"] 2).1,
        v.name = "Alice" →
          v.sample_images = MetaField.parsed ["i"] ∧
          v.enc_count = (["i"] : List String).length) ∧
    List.Pairwise (fun a b : WhitelistView => a.name ≤ b.name)
      (get_whitelist (fun _ => some ["i"]) (add_whitelist_person (fun _ => "e")
          (add_whitelist_person (fun _ => "e") ⟨[], 0⟩ "Alice" ["a", "b", "c"] 1).1
          "Alice" ["i"] 2).1) :=
  whitelist_upsert_replace (fun _ => "e") (fun _ => some ["i"]) ⟨[], 0⟩ "Alice"
    ["a", "b", "c"] ["i"] 1 2 rfl (by decide)

/-! ## Claim C3 -/

theorem get_alerts_sorted (μ : Type) (loads : String → Option μ)
    (db : List AlertRow) (limit offset : Nat) (sf : Option String)
    (af : Option Bool) :
    List.Pairwise (fun a b : AlertView μ => b.timestamp ≤ a.timestamp)
      (get_alerts loads db limit offset sf af) := by
  unfold get_alerts
  rw [List.pairwise_map]
  exact List.Pairwise.sublist
    ((List.take_sublist _ _).trans (List.drop_sublist _ _))
    (List.sorted_insertionSort descTs _)

theorem get_alerts_mem (μ : Type) (loads : String → Option μ)
    (db : List AlertRow) (limit offset : Nat) (sf : Option String)
    (af : Option Bool) :
    ∀ v ∈ get_alerts loads db limit offset sf af,
      ∃ r ∈ db, v = viewRow loads r ∧ rowMatches sf af r = true := by
  intro v hv
  unfold get_alerts at hv
  obtain ⟨r, hr, rfl⟩ := List.mem_map.mp hv
  have hr2 : r ∈ List.insertionSort descTs (db.filter (rowMatches sf af)) :=
    (((List.take_sublist _ _).trans (List.drop_sublist _ _)).subset) hr
  have hr3 : r ∈ db.filter (rowMatches sf af) :=
    ((List.perm_insertionSort descTs _).mem_iff).mp hr2
  have h4 := List.mem_filter.mp hr3
  exact ⟨r, h4.1, rfl, h4.2⟩

/-- Counterexample to claim C3 as stated: a supplied status filter equal
to the empty string is ignored by the Python truthiness test `if status:`,
so an alert whose status does not satisfy the supplied filter is still
returned. -/
theorem get_alerts_cex :
    (get_alerts loadsU [rowX] 20 0 (some "") none).map (fun v => v.status) = ["x"] ∧
    ("x" : String) ≠ "" :=
  ⟨rfl, by decide⟩

/-- Claim C3 (amended): query results are ordered by timestamp descending;
every returned alert satisfies each supplied filter conjunctively, except
that a supplied empty-string status filter is treated as absent;
limit/offset paginate stably over the filtered ordered set; with no
filters all alerts of the store are eligible. -/
theorem get_alerts_contract (μ : Type) (loads : String → Option μ)
    (db : List AlertRow) (limit offset : Nat) (sf : Option String)
    (af : Option Bool) :
    (List.Pairwise (fun a b : AlertView μ => b.timestamp ≤ a.timestamp)
        (get_alerts loads db limit offset sf af)) ∧
    (∀ v ∈ get_alerts loads db limit offset sf af,
        (∀ s, sf = some s → s ≠ "" → v.status = s) ∧
        (∀ b, af = some b → v.acknowledged = b)) ∧
    (get_alerts loads db limit offset (some "") af =
        get_alerts loads db limit offset none af) ∧
    (get_alerts loads db limit offset sf af =
        (get_alerts loads db (offset + limit) 0 sf af).drop offset) ∧
    (get_alerts loads db limit offset none none =
        (((List.insertionSort descTs db).drop offset).take limit).map (viewRow loads)) ∧
    List.Perm (List.insertionSort descTs db) db := by
  refine ⟨get_alerts_sorted μ loads db limit offset sf af, ?_, ?_, ?_, ?_,
    List.perm_insertionSort descTs db⟩
  · intro v hv
    obtain ⟨r, _hrdb, rfl, hm⟩ := get_alerts_mem μ loads db limit offset sf af v hv
    unfold rowMatches at hm
    rw [Bool.and_eq_true] at hm
    constructor
    · intro s hsf hs
      rw [hsf] at hm
      have h1 : (if s = "" then true else decide (r.status = s)) = true := hm.1
      rw [if_neg hs] at h1
      exact of_decide_eq_true h1
    · intro b haf
      rw [haf] at hm
      have h2 : decide (r.acknowledged = b) = true := hm.2
      exact of_decide_eq_true h2
  · have hfn : rowMatches (some "") af = rowMatches none af := by
      funext r
      rfl
    unfold get_alerts
    rw [hfn]
  · unfold get_alerts
    rw [List.drop_zero, ← List.map_drop]
    congr 1
    rw [take_drop_slice]
  · have hfn : rowMatches none none = fun _ : AlertRow => true := by
      funext r
      rfl
    unfold get_alerts
    rw [hfn, List.filter_true]

/-- Witness for the amended C3 theorem: one filtered alert satisfies its
nonempty status filter. -/
theorem get_alerts_contract_w :
    (viewRow loadsU rowX).status = "x" :=
  ((get_alerts_contract Unit loadsU [rowX] 20 0 (some "x") none).2.1
    (viewRow loadsU rowX) (by decide)).1 "x" rfl (by decide)

/-! ## Claim C5 -/

theorem get_alerts_all_views (μ : Type) (loads : String → Option μ)
    (db : List AlertRow) (hlen : db.length ≤ 100) :
    get_alerts loads db 100 0 none none =
      (List.insertionSort descTs db).map (viewRow loads) := by
  unfold get_alerts
  have hfn : rowMatches none none = fun _ : AlertRow => true := by
    funext r
    rfl
  rw [hfn, List.filter_true, List.drop_zero, List.take_of_length_le
    (le_trans (le_of_eq (List.Perm.length_eq (List.perm_insertionSort descTs db))) hlen)]

/-- Counterexample to claim C5 as stated: `_handle_status` reads the store
through `get_alerts(limit=100)`, so with 101 stored alerts the reported
total is 100, not the store's size. -/
theorem status_counts_cex :
    (process_command loadsU db101 "status").data = some ⟨100, 100, 0, 0, 100⟩ ∧
    db101.length = 101 :=
  ⟨rfl, rfl⟩

/-- Claim C5 (amended): on a store holding at most 100 alerts whose stored
meta blobs decode, a status command reports `action = none` and aggregate
counts over the store: total size, unacknowledged count, and per-status
counts for friendly/unknown/suspicious (with more than 100 alerts the
counts cover only the 100 most recent ones). -/
theorem status_counts_bounded (μ : Type) (loads : String → Option μ)
    (db : List AlertRow) (text : String)
    (hkw : kwHit (normalizeText text) statusKeywords = true)
    (hlen : db.length ≤ 100)
    (hdec : ∀ r ∈ db, decodeField loads r.meta ≠ MetaField.decodeError) :
    (process_command loads db text).intent = "status" ∧
    (process_command loads db text).action = none ∧
    (process_command loads db text).data = some
      ⟨db.length,
        db.countP (fun r => !r.acknowledged),
        db.countP (fun r => decide (r.status = "friendly")),
        db.countP (fun r => decide (r.status = "unknown")),
        db.countP (fun r => decide (r.status = "suspicious"))⟩ := by
  have hview := get_alerts_all_views μ loads db hlen
  have hperm := List.perm_insertionSort descTs db
  have herr : (get_alerts loads db 100 0 none none).any
      (fun a => a.meta.isErr) = false := by
    rw [hview, List.any_eq_false]
    intro v hv
    obtain ⟨r, hr, rfl⟩ := List.mem_map.mp hv
    have hrdb : r ∈ db := hperm.mem_iff.mp hr
    have h2 := hdec r hrdb
    show ¬((decodeField loads r.meta).isErr = true)
    cases hdf : decodeField loads r.meta with
    | rawEmpty => simp [MetaField.isErr]
    | parsed m => simp [MetaField.isErr]
    | decodeError => exact absurd hdf h2
  have hcounts : statusCounts (get_alerts loads db 100 0 none none) =
      (⟨db.length,
        db.countP (fun r => !r.acknowledged),
        db.countP (fun r => decide (r.status = "friendly")),
        db.countP (fun r => decide (r.status = "unknown")),
        db.countP (fun r => decide (r.status = "suspicious"))⟩ : StatusData) := by
    rw [hview]
    unfold statusCounts
    congr 1
    · rw [List.length_map]
      exact hperm.length_eq
    · rw [List.countP_map]
      exact List.Perm.countP_eq _ hperm
    · rw [List.countP_map]
      exact List.Perm.countP_eq _ hperm
    · rw [List.countP_map]
      exact List.Perm.countP_eq _ hperm
    · rw [List.countP_map]
      exact List.Perm.countP_eq _ hperm
  have hpc : process_command loads db text =
      ⟨"status", renderStatus (statusCounts (get_alerts loads db 100 0 none none)),
        none, some (statusCounts (get_alerts loads db 100 0 none none))⟩ := by
    unfold process_command
    rw [if_pos hkw]
    unfold handle_status
    rw [if_neg (fun hcontra => Bool.false_ne_true (herr ▸ hcontra))]
  rw [hpc]
  exact ⟨rfl, rfl, congrArg some hcounts⟩

/-- Witness for the amended C5 theorem on a two-alert store. -/
theorem status_counts_bounded_w :
    (process_command loadsU [rowF, rowS] "status").intent = "status" ∧
    (process_command loadsU [rowF, rowS] "status").action = none ∧
    (process_command loadsU [rowF, rowS] "status").data = some
      ⟨([rowF, rowS] : List AlertRow).length,
        ([rowF, rowS] : List AlertRow).countP (fun r => !r.acknowledged),
        ([rowF, rowS] : List AlertRow).countP (fun r => decide (r.status = "friendly")),
        ([rowF, rowS] : List AlertRow).countP (fun r => decide (r.status = "unknown")),
        ([rowF, rowS] : List AlertRow).countP (fun r => decide (r.status = "suspicious"))⟩ :=
  status_counts_bounded Unit loadsU [rowF, rowS] "status" (by decide) (by decide)
    (by decide)

end DoggoBot
